import Mathlib

/-!
Verification development for the SENTINEL event pipeline.

Shallow embedding of the scoring, risk-flag, validation and alert-routing
logic of the repository:
  * `tasks/score_token.py`   → `compute_score` and its helpers,
  * `tasks/risk_filter.py`   → `check_rug_indicators`,
  * `sentinel_ph2.py`        → `validate_token`,
  * `tasks/alert_router.py`  → `route_alert` (sequential semantics) and a
    two-thread interleaving machine for the in-flight/dedup locking protocol.

Numeric values (Python floats) are modelled as exact rationals (`ℚ`).
The Python `round(x, 2)` builtin is modelled as exact round-half-to-even on `ℚ`
(`round2` below).  The Python `a or b` fallback on numbers (used for the
`dict.get(...) or ...` idiom) is modelled by `orElse`: it returns `b`
exactly when `a` is falsy, i.e. zero.
-/

/-- Python `a or b` for numeric values: `a` if truthy (nonzero), else `b`. -/
def orElse (a b : ℚ) : ℚ := if a = 0 then b else a

/-- Token event record.  Fields mirror the keys of the `token_data` dict that
`compute_score` / `check_rug_indicators` read via `.get(key, 0) or 0` (so a
missing numeric key is identified with the value `0`, a missing string key
with `""`, and a missing boolean key with `false`, exactly as the falsy
defaults collapse in the source). -/
structure Token where
  vSolInBondingCurve : ℚ
  liquidity_sol : ℚ
  volume_sol : ℚ
  holders : ℚ
  priceChangePercent : ℚ
  token_age_seconds : ℚ
  devHoldPercent : ℚ
  top10HoldPercent : ℚ
  twitter : String
  telegram : String
  website : String
  mintAuthorityActive : Bool
  metadataFrozen : Bool
  name : String
deriving DecidableEq

/-! ### tasks/score_token.py -/

/-- Liquidity thresholds (SOL), `LIQ_TIERS` in `score_token.py`. -/
def LIQ_TIERS : List (ℚ × ℚ) := [(500, 100), (100, 80), (50, 60), (20, 40), (5, 20), (0, 5)]

/-- Holder thresholds, `HOLDER_TIERS` in `score_token.py`. -/
def HOLDER_TIERS : List (ℚ × ℚ) := [(1000, 100), (500, 80), (200, 60), (100, 40), (50, 20), (0, 5)]

/-- Volume tiers, the local `VOLUME_TIERS` inside `compute_score`. -/
def VOLUME_TIERS : List (ℚ × ℚ) := [(100, 100), (50, 80), (20, 60), (10, 40), (5, 20), (0, 10)]

/-- Map a value to a score using threshold tiers (`_tier_score`). -/
def tier_score (value : ℚ) : List (ℚ × ℚ) → ℚ
  | [] => 0
  | (threshold, score) :: rest => if value ≥ threshold then score else tier_score value rest

/-! ### tasks/risk_filter.py -/

/-- Risk threshold `MIN_LIQUIDITY_SOL` (5.0 in the source). -/
def MIN_LIQUIDITY_SOL : ℚ := 5

/-- Risk threshold `MIN_HOLDERS`. -/
def MIN_HOLDERS : ℚ := 10

/-- Risk threshold `MAX_DEV_HOLD_PCT` (50.0 in the source). -/
def MAX_DEV_HOLD_PCT : ℚ := 50

/-- Risk threshold `MAX_TOP10_HOLD_PCT` (80.0 in the source). -/
def MAX_TOP10_HOLD_PCT : ℚ := 80

/-- Config flag `SOCIAL_REQUIRED` (constant `True` in the source). -/
def SOCIAL_REQUIRED : Bool := true

/-- Copycat-name denylist, `scam_patterns` in `check_rug_indicators`. -/
def scam_patterns : List String := ["official", "2.0", "v2", "real", "new", "legit"]

/-- Lower-cased character list of the token name, modelling `name.lower()`. -/
def lowerName (t : Token) : List Char := t.name.data.map Char.toLower

/-- Copycat-name condition: `any(p in name for p in scam_patterns)`. -/
def copycatHit (t : Token) : Bool :=
  scam_patterns.any (fun p => decide (p.data.IsInfix (lowerName t)))

/-- Rug indicator check (`check_rug_indicators`): appends one flag string per
risk condition that holds, in source order. -/
def check_rug_indicators (t : Token) : List String :=
  (if orElse (orElse t.vSolInBondingCurve t.liquidity_sol) 0 < MIN_LIQUIDITY_SOL
     then ["low_liquidity"] else []) ++
  (if t.holders < MIN_HOLDERS then ["low_holder_count"] else []) ++
  (if t.devHoldPercent > MAX_DEV_HOLD_PCT then ["dev_concentration"] else []) ++
  (if t.top10HoldPercent > MAX_TOP10_HOLD_PCT then ["whale_concentration"] else []) ++
  (if SOCIAL_REQUIRED then
    (if t.twitter = "" ∧ t.telegram = "" ∧ t.website = "" then ["no_socials"] else [])
   else []) ++
  (if t.mintAuthorityActive then ["mint_authority_active"] else []) ++
  (if t.metadataFrozen then ["frozen_metadata"] else []) ++
  (if copycatHit t then ["copycat_name"] else [])

/-! ### Rounding (Python `round(x, 2)` on exact rationals) -/

/-- Round-half-to-even to an integer, the idealisation of the Python `round` builtin. -/
def roundHalfEven (x : ℚ) : ℤ :=
  if x - ⌊x⌋ < 1/2 then ⌊x⌋
  else if 1/2 < x - ⌊x⌋ then ⌊x⌋ + 1
  else if ⌊x⌋ % 2 = 0 then ⌊x⌋ else ⌊x⌋ + 1

/-- Python `round(x, 2)` on exact rationals. -/
def round2 (x : ℚ) : ℚ := (roundHalfEven (x * 100) : ℚ) / 100

/-! ### compute_score -/

/-- Sub-score dict built by `compute_score` (the `components` dict). -/
structure Components where
  liquidity : ℚ
  volume : ℚ
  holders : ℚ
  social : ℚ
  momentum : ℚ
  age_penalty : ℚ
deriving DecidableEq

/-- Sub-score computation of `compute_score` (lines building `components`). -/
def score_components (t : Token) (social_score : ℚ) : Components where
  liquidity := tier_score (orElse t.vSolInBondingCurve t.liquidity_sol) LIQ_TIERS
  volume := tier_score (orElse (orElse t.vSolInBondingCurve t.volume_sol) 0) VOLUME_TIERS
  holders := tier_score t.holders HOLDER_TIERS
  social := min social_score 100
  momentum := min (max t.priceChangePercent 0 / 100 * 100) 100
  age_penalty :=
    if t.token_age_seconds < 300 then 100
    else if t.token_age_seconds < 3600 then 70
    else if t.token_age_seconds < 86400 then 30
    else 0

/-- Weighted composite of the sub-scores with the `WEIGHTS` dict of
`score_token.py` (liquidity 0.25, volume 0.20, holders 0.15, social 0.20,
momentum 0.10, age_penalty 0.10). -/
def weighted_sum (c : Components) : ℚ :=
  c.liquidity * 0.25 + c.volume * 0.20 + c.holders * 0.15 +
  c.social * 0.20 + c.momentum * 0.10 + c.age_penalty * 0.10

/-- Rug penalty: `len(risk_flags) * 10`. -/
def rug_penalty (t : Token) : ℚ := ((check_rug_indicators t).length : ℚ) * 10

/-- Clamped composite before rounding:
`max(0.0, min(100.0, score - rug_penalty))`. -/
def final_score (t : Token) (social_score : ℚ) : ℚ :=
  max 0 (min 100 (weighted_sum (score_components t social_score) - rug_penalty t))

/-- Return value of `compute_score`: the dict
`{"score": ..., "components": ..., "risk_flags": ...}` with score and
components rounded to two decimals. -/
structure ScoreResult where
  score : ℚ
  components : Components
  risk_flags : List String
deriving DecidableEq

/-- Rounding of the returned components dict
(`{k: round(v, 2) for k, v in components.items()}`). -/
def roundComponents (c : Components) : Components where
  liquidity := round2 c.liquidity
  volume := round2 c.volume
  holders := round2 c.holders
  social := round2 c.social
  momentum := round2 c.momentum
  age_penalty := round2 c.age_penalty

/-- Composite SENTINEL score for a token (`compute_score`). -/
def compute_score (t : Token) (social_score : ℚ) : ScoreResult where
  score := round2 (final_score t social_score)
  components := roundComponents (score_components t social_score)
  risk_flags := check_rug_indicators t

/-! ### Rounding lemmas -/

theorem floor_le_rhe (x : ℚ) : ⌊x⌋ ≤ roundHalfEven x := by
  unfold roundHalfEven
  split_ifs <;> omega

theorem rhe_le_floor_add_one (x : ℚ) : roundHalfEven x ≤ ⌊x⌋ + 1 := by
  unfold roundHalfEven
  split_ifs <;> omega

theorem rhe_le_ceil (x : ℚ) : roundHalfEven x ≤ ⌈x⌉ := by
  have hfc : ⌊x⌋ ≤ ⌈x⌉ := Int.floor_le_ceil x
  unfold roundHalfEven
  split_ifs with h1 h2 h3
  · exact hfc
  · have hlt : (⌊x⌋ : ℚ) < x := by linarith
    have := Int.lt_ceil.mpr hlt
    omega
  · exact hfc
  · push_neg at h1
    have hlt : (⌊x⌋ : ℚ) < x := by linarith
    have := Int.lt_ceil.mpr hlt
    omega

theorem rhe_mono {x y : ℚ} (hxy : x ≤ y) : roundHalfEven x ≤ roundHalfEven y := by
  have hf : ⌊x⌋ ≤ ⌊y⌋ := Int.floor_mono hxy
  rcases lt_or_eq_of_le hf with hlt | heq
  · have h1 : roundHalfEven x ≤ ⌊x⌋ + 1 := rhe_le_floor_add_one x
    have h2 : ⌊y⌋ ≤ roundHalfEven y := floor_le_rhe y
    omega
  · unfold roundHalfEven
    rw [← heq]
    have hr : x - (⌊x⌋ : ℚ) ≤ y - (⌊x⌋ : ℚ) := by linarith
    split_ifs <;> first | omega | linarith

theorem round2_nonneg {x : ℚ} (hx : 0 ≤ x) : 0 ≤ round2 x := by
  have h1 : (0 : ℤ) ≤ ⌊x * 100⌋ := Int.floor_nonneg.mpr (by positivity)
  have h2 := floor_le_rhe (x * 100)
  have h3 : (0 : ℚ) ≤ (roundHalfEven (x * 100) : ℚ) := by exact_mod_cast le_trans h1 h2
  unfold round2
  linarith

theorem round2_le_hundred {x : ℚ} (hx : x ≤ 100) : round2 x ≤ 100 := by
  have h1 : roundHalfEven (x * 100) ≤ ⌈x * 100⌉ := rhe_le_ceil _
  have h2 : ⌈x * 100⌉ ≤ (10000 : ℤ) := Int.ceil_le.mpr (by push_cast; linarith)
  have h3 : (roundHalfEven (x * 100) : ℚ) ≤ 10000 := by exact_mod_cast le_trans h1 h2
  unfold round2
  linarith

theorem round2_nonpos {x : ℚ} (hx : x ≤ 0) : round2 x ≤ 0 := by
  have h1 : roundHalfEven (x * 100) ≤ ⌈x * 100⌉ := rhe_le_ceil _
  have h2 : ⌈x * 100⌉ ≤ (0 : ℤ) := Int.ceil_le.mpr (by push_cast; linarith)
  have h3 : (roundHalfEven (x * 100) : ℚ) ≤ 0 := by exact_mod_cast le_trans h1 h2
  unfold round2
  linarith

theorem round2_mono {x y : ℚ} (hxy : x ≤ y) : round2 x ≤ round2 y := by
  have h1 := rhe_mono (mul_le_mul_of_nonneg_right hxy (by norm_num : (0:ℚ) ≤ 100))
  have h2 : (roundHalfEven (x * 100) : ℚ) ≤ (roundHalfEven (y * 100) : ℚ) := by
    exact_mod_cast h1
  unfold round2
  linarith

/-! ### tasks/alert_router.py -/

/-- Notification threshold `ALERT_THRESHOLD_SLACK` (env default "70"). -/
def THRESHOLD_SLACK : ℚ := 70

/-- Notification threshold `ALERT_THRESHOLD_ALL_CHANNELS` (env default "85"). -/
def THRESHOLD_ALL : ℚ := 85

/-- Notification threshold `ALERT_THRESHOLD_URGENT` (env default "95"). -/
def THRESHOLD_URGENT : ℚ := 95

/-- Shared Redis key space used by the router, restricted to the two key
families it touches: the long-TTL dedup keys `sentinel:alert:dedup:{mint}`
and the short-TTL in-flight keys `sentinel:alert:inflight:{mint}`.  Each
family is a predicate on mints (key present or not). -/
structure RStore where
  dedup : String → Bool
  inflight : String → Bool

/-- Redis `SET key ... NX` / `SETEX`: mark a key present. -/
def setKey (f : String → Bool) (k : String) : String → Bool :=
  fun x => if x = k then true else f x

/-- Redis `DEL key`: mark a key absent. -/
def delKey (f : String → Bool) (k : String) : String → Bool :=
  fun x => if x = k then false else f x

/-- Outcome of one `route_alert` task execution.  `retryRaised` stands for
the transient path raising `self.retry(exc=...)` back to Celery. -/
inductive AttemptResult where
  | below_threshold
  | deduped
  | in_flight
  | delivered (channels : List String)
  | retryRaised
  | failed
deriving DecidableEq

/-- Sequential semantics of one `route_alert(token, score)` execution.
`sendOk` is the delivery oracle for `_send_slack` (which raises
`RuntimeError`, a transient error, when it fails).  The result carries the
outcome, the post-state of the shared store, and the list of channels to
which delivery was attempted.  On success the body runs
`release_in_flight_and_set_dedup` (delete in-flight key, then set dedup
key); on exception it runs `r.delete(...inflight...)` only. -/
def route_alert (sendOk : Bool) (mint : String) (score : ℚ) (s : RStore) :
    AttemptResult × RStore × List String :=
  if score < THRESHOLD_SLACK then (.below_threshold, s, [])
  else if s.dedup mint then (.deduped, s, [])
  else if s.inflight mint then (.in_flight, s, [])
  else
    -- in-flight lock acquired (SET NX succeeded)
    if THRESHOLD_SLACK ≤ score then
      if sendOk then
        (.delivered ["slack"],
         ⟨setKey s.dedup mint, delKey (setKey s.inflight mint) mint⟩, ["slack"])
      else
        (.retryRaised, ⟨s.dedup, delKey (setKey s.inflight mint) mint⟩, ["slack"])
    else
      -- dead branch kept from the source: the inner `if score >= THRESHOLD_SLACK`
      -- guard of the Slack block cannot fail after the outer threshold check
      (.delivered [], ⟨setKey s.dedup mint, delKey (setKey s.inflight mint) mint⟩, [])

/-- Celery retry policy around `route_alert` (`max_retries` bound): re-run the
task on the transient `retryRaised` path while the retry budget lasts; when
the budget is exhausted the task is marked failed. -/
def route_with_retries (sendOk : Bool) (mint : String) (score : ℚ) :
    ℕ → RStore → AttemptResult × RStore
  | 0, s =>
    match route_alert sendOk mint score s with
    | (.retryRaised, s1, _) => (.failed, s1)
    | (r, s1, _) => (r, s1)
  | Nat.succ m, s =>
    match route_alert sendOk mint score s with
    | (.retryRaised, s1, _) => route_with_retries sendOk mint score m s1
    | (r, s1, _) => (r, s1)

/-- Channel plan claimed by the spec.  Modelled from the spec: "an ordered
list of ascending thresholds (e.g. ≥70 → primary channel, ≥85 → primary +
secondary, ≥95 → all channels + urgent channel)", with the channel names the
source reserves for those tiers (slack / discord / telegram). -/
def spec_channel_plan (score : ℚ) : List String :=
  if THRESHOLD_URGENT ≤ score then ["slack", "discord", "telegram"]
  else if THRESHOLD_ALL ≤ score then ["slack", "discord"]
  else if THRESHOLD_SLACK ≤ score then ["slack"]
  else []

/-! ### Two-thread interleaving machine for `route_alert`

Each Redis call in `route_alert` is one atomic step; between two steps of
one task execution, a concurrently running execution for the same mint may
interleave.  Program counters follow the source line by line:
pc 0 threshold check, pc 1 `r.exists(dedup)`, pc 2 atomic `SET NX`
(`try_acquire_in_flight`), pc 3 `_send_slack` (assumed to succeed; touches
no shared router state), pc 4 `r.delete(inflight)`, pc 5 `r.setex(dedup)`
and return `delivered`.  Steps 4 and 5 are the body of
`release_in_flight_and_set_dedup`, two separate Redis commands. -/

/-- Thread state: program counter plus result once terminal. -/
structure ThreadSt where
  pc : ℕ
  res : Option AttemptResult
deriving DecidableEq

/-- One atomic step of a `route_alert` execution on the shared store. -/
def threadStep (mint : String) (score : ℚ) (st : RStore) (th : ThreadSt) :
    RStore × ThreadSt :=
  match th.res with
  | some _ => (st, th)
  | none =>
    match th.pc with
    | 0 =>
      if score < THRESHOLD_SLACK then (st, ⟨0, some .below_threshold⟩)
      else (st, ⟨1, none⟩)
    | 1 =>
      if st.dedup mint then (st, ⟨1, some .deduped⟩) else (st, ⟨2, none⟩)
    | 2 =>
      if st.inflight mint then (st, ⟨2, some .in_flight⟩)
      else (⟨st.dedup, setKey st.inflight mint⟩, ⟨3, none⟩)
    | 3 => (st, ⟨4, none⟩)
    | 4 => (⟨st.dedup, delKey st.inflight mint⟩, ⟨5, none⟩)
    | _ => (⟨setKey st.dedup mint, st.inflight⟩, ⟨5, some (.delivered ["slack"])⟩)

/-- System state of two concurrent `route_alert` executions for one mint. -/
structure SysSt where
  store : RStore
  thA : ThreadSt
  thB : ThreadSt

/-- Scheduler step: `true` steps thread A, `false` steps thread B. -/
def sysStep (mint : String) (score : ℚ) (s : SysSt) (pickA : Bool) : SysSt :=
  if pickA then
    let p := threadStep mint score s.store s.thA
    ⟨p.1, p.2, s.thB⟩
  else
    let p := threadStep mint score s.store s.thB
    ⟨p.1, s.thA, p.2⟩

/-- Run a schedule (list of scheduler choices) from a system state. -/
def runSched (mint : String) (score : ℚ) : List Bool → SysSt → SysSt
  | [], s => s
  | c :: rest, s => runSched mint score rest (sysStep mint score s c)

/-- Initial state: empty store, both executions at their first line. -/
def initSys : SysSt := ⟨⟨fun _ => false, fun _ => false⟩, ⟨0, none⟩, ⟨0, none⟩⟩

/-- Schedule exhibiting the duplicate-delivery race: thread A runs up to and
including its `r.delete(inflight)` step, thread B then runs to completion,
then A finishes. -/
def raceSched : List Bool :=
  [true, true, true, true, true, false, false, false, false, false, false, true]

/-! ### sentinel_ph2.py validator -/

/-- Raw WebSocket payload as seen by `validate_token`: either not a dict at
all, or a dict with the keys the validator and the claim mention (each
optional, `none` = key absent). -/
inductive RawMsg where
  | notDict
  | obj (txType : Option String) (mint : Option String)
        (marketCapSol : Option ℚ) (liquidity : Option ℚ)
deriving DecidableEq

/-- Event validator (`validate_token` in `sentinel_ph2.py`): accept only
well-formed `create` events whose `mint` has length 30–50. -/
def validate_token : RawMsg → Bool
  | .notDict => false
  | .obj txType mint _ _ =>
    if txType ≠ some "create" then false
    else
      let m := mint.getD ""
      if m = "" then false
      else if ¬(30 ≤ m.length ∧ m.length ≤ 50) then false
      else true

/-- Rejection predicate asserted by the claim.  Modelled from the spec:
reject when the payload is not a well-formed creation notification, when the
identifier is missing or outside the 30–50 length bounds, or when the
required numeric fields (`market_cap`, `liquidity`) are absent. -/
def claim_rejects : RawMsg → Bool
  | .notDict => true
  | .obj txType mint marketCapSol liquidity =>
    txType ≠ some "create" ∨ mint.getD "" = "" ∨
      ¬(30 ≤ (mint.getD "").length ∧ (mint.getD "").length ≤ 50) ∨
      marketCapSol = none ∨ liquidity = none

/-! ### Concrete tokens and payloads used in scenarios and witnesses -/

/-- Scenario A token: liquidity 600 SOL, 1200 holders, 60 s old, one social
link, no risk conditions true. -/
def scenarioA : Token := ⟨600, 0, 0, 1200, 0, 60, 0, 0, "x", "", "", false, false, ""⟩

/-- Scenario B token: liquidity 2 SOL, 3 holders, dev holds 70 %, mint
authority active, no social links. -/
def scenarioB : Token := ⟨2, 0, 0, 3, 0, 0, 70, 0, "", "", "", true, false, ""⟩

/-- Token with every numeric field 0, no socials, no boolean flags. -/
def zeroTok : Token := ⟨0, 0, 0, 0, 0, 0, 0, 0, "", "", "", false, false, ""⟩

/-- `zeroTok` with one additional risk condition made true
(`metadataFrozen`), an attribute no sub-score reads. -/
def zeroTokF : Token := { zeroTok with metadataFrozen := true }

/-- Store with no dedup key and no in-flight key present. -/
def emptyStore : RStore := ⟨fun _ => false, fun _ => false⟩

/-- Mint identifier of length 40 used as a validator test payload. -/
def mint40 : String := "aaaaaaaaaaaaaaaaaaaaaaaaaaaaaaaaaaaaaaaa"

/-- Well-formed `create` payload with a valid mint but with both required
numeric fields absent. -/
def rawNoNumerics : RawMsg := .obj (some "create") (some mint40) none none

/-! ### Shared evaluation lemmas for the scenario tokens -/

theorem scenarioA_flags : check_rug_indicators scenarioA = [] := by decide

theorem scenarioA_components : score_components scenarioA 90 = ⟨100, 100, 100, 90, 0, 100⟩ := by
  norm_num [score_components, tier_score, LIQ_TIERS, VOLUME_TIERS, HOLDER_TIERS, orElse,
    min_def, max_def, scenarioA]

theorem scenarioA_score : (compute_score scenarioA 90).score = 88 := by
  have h3 : final_score scenarioA 90 = 88 := by
    rw [final_score, scenarioA_components, rug_penalty, scenarioA_flags]
    norm_num [weighted_sum]
  rw [compute_score, h3]
  norm_num [round2, roundHalfEven, Int.floor_eq_iff]

theorem scenarioB_flags : check_rug_indicators scenarioB =
    ["low_liquidity", "low_holder_count", "dev_concentration", "no_socials",
     "mint_authority_active"] := by decide

theorem scenarioB_score : (compute_score scenarioB 0).score = 0 := by
  have h2 : score_components scenarioB 0 = ⟨5, 10, 5, 0, 0, 100⟩ := by
    norm_num [score_components, tier_score, LIQ_TIERS, VOLUME_TIERS, HOLDER_TIERS, orElse,
      min_def, max_def, scenarioB]
  have h3 : final_score scenarioB 0 = 0 := by
    rw [final_score, h2, rug_penalty, scenarioB_flags]
    norm_num [weighted_sum]
  rw [compute_score, h3]
  norm_num [round2, roundHalfEven, Int.floor_eq_iff]

/-! ### Claim C1 -/

/-- C1: for every token input and every social score, the composite score
returned by `compute_score` is in [0, 100] and is rounded to two decimal
places (an exact integer multiple of 1/100), including for arbitrary finite
numeric inputs such as negative or zero liquidity and holder counts. -/
theorem composite_score_in_range (t : Token) (social_score : ℚ) :
    0 ≤ (compute_score t social_score).score ∧
    (compute_score t social_score).score ≤ 100 ∧
    ∃ z : ℤ, (compute_score t social_score).score = (z : ℚ) / 100 := by
  have hf0 : 0 ≤ final_score t social_score := le_max_left _ _
  have hf1 : final_score t social_score ≤ 100 :=
    max_le (by norm_num) (min_le_left _ _)
  exact ⟨round2_nonneg hf0, round2_le_hundred hf1,
    ⟨roundHalfEven (final_score t social_score * 100), rfl⟩⟩

/-! ### Claim C2 -/

/-- C2 counterexample: on the Scenario A event (liquidity 600, holders 1200,
social 90, age 60 s, no risk flags) `compute_score` returns 88, strictly
below the claimed lower bound 95 (the momentum sub-score defaults to 0 and
the social sub-score is 90, not 100). -/
theorem scenario_a_counterexample :
    (compute_score scenarioA 90).score = 88 ∧ (compute_score scenarioA 90).score < 95 := by
  refine ⟨scenarioA_score, ?_⟩
  rw [scenarioA_score]
  norm_num

/-- C2 amended: on the Scenario A event the tier-mapped sub-scores
(liquidity, volume, holders, recency) are each at their top tier of 100, the
social sub-score is 90, the momentum sub-score is 0, no risk flag is raised,
and the composite score is exactly 88 (hence at least 85, not 95). -/
theorem scenario_a_amended :
    (compute_score scenarioA 90).components.liquidity = 100 ∧
    (compute_score scenarioA 90).components.volume = 100 ∧
    (compute_score scenarioA 90).components.holders = 100 ∧
    (compute_score scenarioA 90).components.age_penalty = 100 ∧
    (compute_score scenarioA 90).components.social = 90 ∧
    (compute_score scenarioA 90).components.momentum = 0 ∧
    (compute_score scenarioA 90).risk_flags = [] ∧
    (compute_score scenarioA 90).score = 88 ∧
    (85 : ℚ) ≤ (compute_score scenarioA 90).score := by
  have h100 : round2 100 = 100 := by norm_num [round2, roundHalfEven, Int.floor_eq_iff]
  have h90 : round2 90 = 90 := by norm_num [round2, roundHalfEven, Int.floor_eq_iff]
  have h0 : round2 0 = 0 := by norm_num [round2, roundHalfEven, Int.floor_eq_iff]
  have hsc : (compute_score scenarioA 90).components =
      roundComponents ⟨100, 100, 100, 90, 0, 100⟩ := by
    simp only [compute_score, scenarioA_components]
  refine ⟨?_, ?_, ?_, ?_, ?_, ?_, scenarioA_flags, scenarioA_score, ?_⟩
  · rw [hsc]; exact h100
  · rw [hsc]; exact h100
  · rw [hsc]; exact h100
  · rw [hsc]; exact h100
  · rw [hsc]; exact h90
  · rw [hsc]; exact h0
  · rw [scenarioA_score]; norm_num

/-! ### Claim C3 -/

/-- C3: the risk-flag penalty is monotonic — for fixed event attributes as
they enter the sub-scores (equal `components` dict), making one additional
risk-flag condition true (so the flag list gains one element) never
increases the final composite score returned by `compute_score`. -/
theorem risk_penalty_monotone (t t' : Token) (social_score : ℚ)
    (hc : score_components t' social_score = score_components t social_score)
    (hl : (check_rug_indicators t').length = (check_rug_indicators t).length + 1) :
    (compute_score t' social_score).score ≤ (compute_score t social_score).score := by
  have hp : rug_penalty t' = rug_penalty t + 10 := by
    rw [rug_penalty, rug_penalty, hl]
    push_cast
    ring
  have hf : final_score t' social_score ≤ final_score t social_score := by
    rw [final_score, final_score, hc, hp]
    have hsub : weighted_sum (score_components t social_score) - (rug_penalty t + 10) ≤
        weighted_sum (score_components t social_score) - rug_penalty t := by linarith
    exact max_le_max le_rfl (min_le_min le_rfl hsub)
  exact round2_mono hf

/-- C3 witness: `zeroTokF` differs from `zeroTok` only in `metadataFrozen`,
so the sub-scores agree, the flag list gains exactly the `frozen_metadata`
element, and the composite does not increase. -/
theorem risk_penalty_monotone_witness :
    score_components zeroTokF 0 = score_components zeroTok 0 ∧
    (check_rug_indicators zeroTokF).length = (check_rug_indicators zeroTok).length + 1 ∧
    (compute_score zeroTokF 0).score ≤ (compute_score zeroTok 0).score :=
  ⟨rfl, by decide, risk_penalty_monotone zeroTok zeroTokF 0 rfl (by decide)⟩

/-! ### Claim C10 -/

/-- C10 counterexample: for `social_score = -1/3` the returned
`components["social"]` is the rounded value `-33/100`, not the negative
input value itself — the claim text "equal to that negative value" fails
because the returned components dict is rounded to two decimals. -/
theorem social_subscore_counterexample :
    (-1/3 : ℚ) < 0 ∧ (compute_score zeroTok (-1/3)).components.social ≠ (-1/3 : ℚ) := by
  constructor
  · norm_num
  · show round2 (min (-1/3 : ℚ) 100) ≠ (-1/3 : ℚ)
    have hmin : min (-1/3 : ℚ) 100 = -1/3 := by norm_num [min_def]
    rw [hmin]
    norm_num [round2, roundHalfEven, Int.floor_eq_iff]

/-- C10 amended: the social sub-score is capped only from above — for every
input with `social_score < 0`, `compute_score` returns
`components["social"]` equal to the negative value rounded to two decimals
(still not clamped above 0), the unrounded negative value enters the
weighted sum with weight 0.20, and the returned final score is still clamped
to at least 0. -/
theorem social_subscore_not_clamped (t : Token) (social_score : ℚ)
    (h : social_score < 0) :
    (compute_score t social_score).components.social = round2 social_score ∧
    round2 social_score ≤ 0 ∧
    weighted_sum (score_components t social_score) =
      weighted_sum (score_components t 0) + social_score * 0.20 ∧
    0 ≤ (compute_score t social_score).score := by
  have hmin : min social_score 100 = social_score := min_eq_left (by linarith)
  have hmin0 : min (0 : ℚ) 100 = 0 := by norm_num [min_def]
  refine ⟨?_, round2_nonpos (le_of_lt h), ?_, round2_nonneg (le_max_left _ _)⟩
  · show round2 (min social_score 100) = round2 social_score
    rw [hmin]
  · simp only [weighted_sum, score_components, hmin, hmin0]
    ring

/-- C10 witness at `social_score = -2` on the all-zero token. -/
theorem social_subscore_not_clamped_witness :
    (-2 : ℚ) < 0 ∧
    ((compute_score zeroTok (-2)).components.social = round2 (-2) ∧
     round2 (-2) ≤ 0 ∧
     weighted_sum (score_components zeroTok (-2)) =
       weighted_sum (score_components zeroTok 0) + (-2) * 0.20 ∧
     0 ≤ (compute_score zeroTok (-2)).score) :=
  ⟨by norm_num, social_subscore_not_clamped zeroTok (-2) (by norm_num)⟩

/-! ### Claim C6 -/

/-- C6: for every call to `route_alert` with a score strictly below the
lowest notification threshold (default 70), the outcome is
`below_threshold` and no state is touched — the result is the same for
every store, the store is returned unchanged (no lock taken, no dedup key
written), and no channel delivery is attempted. -/
theorem route_alert_below_threshold (sendOk : Bool) (mint : String) (score : ℚ)
    (h : score < THRESHOLD_SLACK) (s : RStore) :
    route_alert sendOk mint score s = (.below_threshold, s, []) := by
  rw [route_alert, if_pos h]

/-- C6 witness at score 50 on a nonempty store. -/
theorem route_alert_below_threshold_witness :
    (50 : ℚ) < THRESHOLD_SLACK ∧
    route_alert true "m" 50 emptyStore = (.below_threshold, emptyStore, []) :=
  ⟨by norm_num [THRESHOLD_SLACK],
   route_alert_below_threshold true "m" 50 (by norm_num [THRESHOLD_SLACK]) emptyStore⟩

/-! ### Claim C4 -/

/-- C4 counterexample: at score 95 (above every threshold) `route_alert`
attempts delivery only to `slack`, not to the full channel set the spec demands for
that tier — the secondary and urgent channels are not wired. -/
theorem route_alert_channels_counterexample :
    (route_alert true "m" 95 emptyStore).2.2 ≠ spec_channel_plan 95 := by
  norm_num [route_alert, spec_channel_plan, THRESHOLD_SLACK, THRESHOLD_ALL, THRESHOLD_URGENT,
    emptyStore]
  decide

/-- C4 amended: with the in-flight lock held (score at or over the lowest
threshold, no dedup key, no in-flight key), `route_alert` attempts delivery
only to the primary Slack channel for every score — including scores above
85 and 95; in particular a score of 72 selects only the primary channel. -/
theorem route_alert_primary_channel_only (sendOk : Bool) (mint : String) (score : ℚ)
    (s : RStore) (h : THRESHOLD_SLACK ≤ score) (hd : s.dedup mint = false)
    (hi : s.inflight mint = false) :
    (route_alert sendOk mint score s).2.2 = ["slack"] := by
  cases sendOk <;> simp [route_alert, hd, hi, not_lt.mpr h, h]

/-- C4 witness at score 72 from an empty store. -/
theorem route_alert_primary_channel_only_witness :
    THRESHOLD_SLACK ≤ (72 : ℚ) ∧ emptyStore.dedup "m" = false ∧
    emptyStore.inflight "m" = false ∧
    (route_alert true "m" 72 emptyStore).2.2 = ["slack"] :=
  ⟨by norm_num [THRESHOLD_SLACK], rfl, rfl,
   route_alert_primary_channel_only true "m" 72 emptyStore
     (by norm_num [THRESHOLD_SLACK]) rfl rfl⟩

/-! ### Claim C5 -/

/-- Helper for C5: with delivery always failing, the retry loop always ends
`failed` and leaves neither the in-flight key nor the dedup key set. -/
theorem retries_exhausted_aux (mint : String) (score : ℚ)
    (h : THRESHOLD_SLACK ≤ score) :
    ∀ (n : ℕ) (s : RStore), s.dedup mint = false → s.inflight mint = false →
      (route_with_retries false mint score n s).1 = .failed ∧
      (route_with_retries false mint score n s).2.inflight mint = false ∧
      (route_with_retries false mint score n s).2.dedup mint = false := by
  intro n
  induction n with
  | zero =>
    intro s hd hi
    have hstep : route_alert false mint score s =
        (.retryRaised, ⟨s.dedup, delKey (setKey s.inflight mint) mint⟩, ["slack"]) := by
      simp [route_alert, hd, hi, not_lt.mpr h, h]
    simp [route_with_retries, hstep, delKey, hd]
  | succ m ih =>
    intro s hd hi
    have hstep : route_alert false mint score s =
        (.retryRaised, ⟨s.dedup, delKey (setKey s.inflight mint) mint⟩, ["slack"]) := by
      simp [route_alert, hd, hi, not_lt.mpr h, h]
    have hrec := ih ⟨s.dedup, delKey (setKey s.inflight mint) mint⟩ hd (by simp [delKey])
    simpa [route_with_retries, hstep] using hrec

/-- C5: when the channel delivery inside `route_alert` fails (raises), the
in-flight lock for the identifier is released and the long-TTL dedup key
(DeliveryRecord) is never written — the single attempt ends on the transient
retry path with the in-flight key absent and the dedup key still absent, and
after any retry budget is exhausted the outcome is `failed` with the
in-flight lock absent and no DeliveryRecord present. -/
theorem route_alert_failure_path (mint : String) (score : ℚ) (s : RStore) (n : ℕ)
    (h : THRESHOLD_SLACK ≤ score) (hd : s.dedup mint = false)
    (hi : s.inflight mint = false) :
    (route_alert false mint score s).1 = .retryRaised ∧
    (route_alert false mint score s).2.1.inflight mint = false ∧
    (route_alert false mint score s).2.1.dedup mint = false ∧
    (route_with_retries false mint score n s).1 = .failed ∧
    (route_with_retries false mint score n s).2.inflight mint = false ∧
    (route_with_retries false mint score n s).2.dedup mint = false := by
  have hstep : route_alert false mint score s =
      (.retryRaised, ⟨s.dedup, delKey (setKey s.inflight mint) mint⟩, ["slack"]) := by
    simp [route_alert, hd, hi, not_lt.mpr h, h]
  have haux := retries_exhausted_aux mint score h n s hd hi
  refine ⟨by rw [hstep], ?_, by rw [hstep]; exact hd, haux.1, haux.2.1, haux.2.2⟩
  rw [hstep]
  simp [delKey]

/-- C5 witness: score 80, empty store, Celery retry budget 3. -/
theorem route_alert_failure_path_witness :
    THRESHOLD_SLACK ≤ (80 : ℚ) ∧ emptyStore.dedup "m" = false ∧
    emptyStore.inflight "m" = false ∧
    ((route_alert false "m" 80 emptyStore).1 = .retryRaised ∧
     (route_alert false "m" 80 emptyStore).2.1.inflight "m" = false ∧
     (route_alert false "m" 80 emptyStore).2.1.dedup "m" = false ∧
     (route_with_retries false "m" 80 3 emptyStore).1 = .failed ∧
     (route_with_retries false "m" 80 3 emptyStore).2.inflight "m" = false ∧
     (route_with_retries false "m" 80 3 emptyStore).2.dedup "m" = false) :=
  ⟨by norm_num [THRESHOLD_SLACK], rfl, rfl,
   route_alert_failure_path "m" 80 emptyStore 3 (by norm_num [THRESHOLD_SLACK]) rfl rfl⟩

/-! ### Claim C8 -/

/-- Membership in a single conditional flag block. -/
theorem mem_flag_block {c : Prop} [Decidable c] (a b : String) :
    (a ∈ if c then [b] else ([] : List String)) ↔ c ∧ a = b := by
  split_ifs with h <;> simp [h]

/-- C8: the risk-flag evaluator is a pure function of the event attributes
returning exactly the flags whose default threshold conditions hold
(membership characterisation for every flag), and on the Scenario B event
(liquidity 2, holders 3, dev hold 70 %, mint authority active, no socials)
it yields exactly {low_liquidity, low_holder_count, dev_concentration,
no_socials, mint_authority_active}, a penalty of 50, and a final score
clamped to 0 (hence at least 0). -/
theorem risk_flag_evaluator_spec :
    (∀ t : Token,
      (("low_liquidity" ∈ check_rug_indicators t) ↔
        orElse (orElse t.vSolInBondingCurve t.liquidity_sol) 0 < MIN_LIQUIDITY_SOL) ∧
      (("low_holder_count" ∈ check_rug_indicators t) ↔ t.holders < MIN_HOLDERS) ∧
      (("dev_concentration" ∈ check_rug_indicators t) ↔
        t.devHoldPercent > MAX_DEV_HOLD_PCT) ∧
      (("whale_concentration" ∈ check_rug_indicators t) ↔
        t.top10HoldPercent > MAX_TOP10_HOLD_PCT) ∧
      (("no_socials" ∈ check_rug_indicators t) ↔
        (t.twitter = "" ∧ t.telegram = "" ∧ t.website = "")) ∧
      (("mint_authority_active" ∈ check_rug_indicators t) ↔
        t.mintAuthorityActive = true) ∧
      (("frozen_metadata" ∈ check_rug_indicators t) ↔ t.metadataFrozen = true) ∧
      (("copycat_name" ∈ check_rug_indicators t) ↔ copycatHit t = true)) ∧
    check_rug_indicators scenarioB =
      ["low_liquidity", "low_holder_count", "dev_concentration", "no_socials",
       "mint_authority_active"] ∧
    rug_penalty scenarioB = 50 ∧
    (compute_score scenarioB 0).score = 0 := by
  refine ⟨?_, scenarioB_flags, ?_, scenarioB_score⟩
  · intro t
    refine ⟨?_, ?_, ?_, ?_, ?_, ?_, ?_, ?_⟩ <;>
      simp [check_rug_indicators, mem_flag_block, SOCIAL_REQUIRED, List.mem_append]
  · rw [rug_penalty, scenarioB_flags]
    norm_num

/-! ### Claim C7 -/

/-- C7 counterexample: a well-formed `create` payload with a valid 40-char
mint but with both required numeric fields absent is accepted by
`validate_token`, while the rejection predicate of the claim says it must be
rejected — the validator performs no numeric-field check. -/
theorem validate_token_counterexample :
    validate_token rawNoNumerics = true ∧ claim_rejects rawNoNumerics = true := by
  decide

/-- C7 amended: `validate_token` rejects a raw payload exactly when it is
not a well-formed creation notification (not a dict, or wrong event type)
or when the identifier is missing/empty or its length is outside the 30–50
bounds; absent numeric fields (`market_cap`, `liquidity`) are not checked
and never cause rejection.  Validation is a pure function with no side
effects. -/
theorem validate_token_characterization :
    validate_token RawMsg.notDict = false ∧
    ∀ (txType mint : Option String) (marketCapSol liquidity : Option ℚ),
      validate_token (.obj txType mint marketCapSol liquidity) = true ↔
        (txType = some "create" ∧ mint.getD "" ≠ "" ∧
         30 ≤ (mint.getD "").length ∧ (mint.getD "").length ≤ 50) := by
  refine ⟨rfl, ?_⟩
  intro txType mint mc liq
  simp only [validate_token]
  split_ifs with h1 h2 h3 <;>
    simp_all [not_and_or, and_assoc]

/-- C7 witness: the amended characterisation evaluated on a concrete
accepted payload carrying both numeric fields. -/
theorem validate_token_characterization_witness :
    validate_token (.obj (some "create") (some mint40) (some 1) (some 2)) = true :=
  (validate_token_characterization.2 (some "create") (some mint40) (some 1) (some 2)).mpr
    ⟨rfl, by decide, by decide, by decide⟩

/-! ### Claim C9 -/

/-- C9: duplicate-delivery race in `route_alert`.  Because
`release_in_flight_and_set_dedup` deletes the in-flight key before setting
the dedup key, the schedule `raceSched` lets a second concurrent attempt for
the same mint pass the dedup check and acquire the lock in between, and both
concurrent executions terminate `delivered` — refuting "exactly one attempt
reaches the delivered outcome". -/
theorem duplicate_delivery_race :
    (runSched "m" 80 raceSched initSys).thA.res = some (.delivered ["slack"]) ∧
    (runSched "m" 80 raceSched initSys).thB.res = some (.delivered ["slack"]) := by
  constructor <;> rfl
